import Mathlib

/-!
Verification development for the YouTube playback automation repository.

The embedding follows the Python source:
  * `scripts/selenium_control.py` — class `YouTubeController` (driver lifecycle,
    URL normalization on `open`, playback controls, ad-skip tick, error-recovery
    tick with exponential backoff);
  * `gui/main_window.py` — class `MainWindow` (shuffled play queue:
    `_rebuild_shuffle_order`, `next_video`).

Times and media positions are modelled as rationals; driver interaction is made
explicit as an effect trace, and the values a driver call would return on a live
page (a playback snapshot, a play/pause answer, launch success) are inputs to
the modelled operation.
-/

/-! Character-level string helpers.  The Lean core `String` functions for
trim / affix tests are compiled through `Substring` code that the kernel does
not reduce, so the embedding uses these structurally recursive equivalents
(they operate on the underlying character list). -/

/-- Python `str.strip()`: drop whitespace from both ends. -/
def pyStrip (s : String) : String :=
  ⟨((s.data.dropWhile Char.isWhitespace).reverse.dropWhile Char.isWhitespace).reverse⟩

/-- `s.endswith(suffix)`. -/
def strEndsWith (s suffix : String) : Bool :=
  List.isSuffixOf suffix.data s.data

/-- `s.startswith(p)`. -/
def strStartsWith (s p : String) : Bool :=
  List.isPrefixOf p.data s.data

/-- Does `p` occur as a contiguous substring? (char-list worker). -/
def charsHaveInfix (p : List Char) : List Char → Bool
  | [] => p.isEmpty
  | c :: rest => List.isPrefixOf p (c :: rest) || charsHaveInfix p rest

/-- Python `p in s` on strings. -/
def strHasInfix (s p : String) : Bool := charsHaveInfix p.data s.data

/-- Tags for the JavaScript snippets the controller executes; the concrete
script text is irrelevant to control flow, only which call site fired. -/
inductive ScriptTag where
  | playVid
  | pauseVid
  | nextBtn
  | queryPlaying
  | adSkip
  | snapshotRead
  deriving DecidableEq, Repr

/-- One observable driver interaction. -/
inductive Effect where
  | execScript (tag : ScriptTag)
  | refresh
  | launch
  | quit
  deriving DecidableEq, Repr

/-- State of one `YouTubeController` instance (`selenium_control.py`, `__init__`).
`driver = true` models `self.driver` being a live webdriver handle; `proxy` and
`profile_dir` are `self._proxy` / `self._profile_dir`; the remaining fields are
the error-recovery state. -/
structure YouTubeController where
  driver : Bool
  proxy : Option String
  profile_dir : Option String
  last_check_ts : ℚ
  last_reload_ts : ℚ
  last_video_time : Option ℚ
  last_video_time_ts : ℚ
  reload_backoff_s : ℚ
  reload_backoff_max_s : ℚ
  deriving DecidableEq, Repr

namespace YouTubeController

/-- `YouTubeController.__init__`. -/
def init : YouTubeController :=
  { driver := false
    proxy := none
    profile_dir := none
    last_check_ts := 0
    last_reload_ts := 0
    last_video_time := none
    last_video_time_ts := 0
    reload_backoff_s := 10
    reload_backoff_max_s := 300 }

/-- The dict returned by the snapshot script in `error_recover_tick`:
`hasErr` is the error-overlay flag, `t` is `v.currentTime` (null when there is
no video element), `paused` is `v.paused` (null likewise), `rs` is
`v.readyState` (0 when absent, already coerced by `int(... or 0)`). -/
structure Snapshot where
  hasErr : Bool
  t : Option ℚ
  paused : Option Bool
  rs : ℤ
  deriving DecidableEq, Repr

/-- Outcome of the snapshot-reading `execute_script` call in
`error_recover_tick`: the call may raise (caught, tick aborts), may return a
non-dict value, or returns a dict modelled by `Snapshot`. -/
inductive SnapResult where
  | scriptError
  | nonDict
  | ok (s : Snapshot)
  deriving DecidableEq, Repr

/-- The body of the `isinstance(state, dict)` branch of `error_recover_tick`:
updates the progress-tracking fields and decides `should_reload`.
Mirrors lines 328-357 of `selenium_control.py`. -/
def stuckUpdate (c : YouTubeController) (now : ℚ) (s : Snapshot) :
    YouTubeController × Bool :=
  if s.hasErr then (c, true)
  else
    match s.t with
    | none => (c, false)
    | some tf =>
      match c.last_video_time with
      | none => ({ c with last_video_time := some tf, last_video_time_ts := now }, false)
      | some lvt =>
        if lvt + 1/100 < tf then
          -- progress observed: record it, and relax the backoff if the last
          -- reload is comfortably in the past
          let c' := { c with last_video_time := some tf, last_video_time_ts := now }
          if 15 < now - c.last_reload_ts then
            ({ c' with reload_backoff_s := 10 }, false)
          else (c', false)
        else
          if s.paused = some false ∧ 2 ≤ s.rs ∧ 20 < now - c.last_video_time_ts then
            (c, true)
          else (c, false)

/-- Result of one error-recovery tick: the new controller state, whether
`driver.refresh()` was issued, and the driver interactions performed. -/
structure TickOut where
  ctrl : YouTubeController
  fired : Bool
  effects : List Effect
  deriving DecidableEq, Repr

/-- `YouTubeController.error_recover_tick` (lines 293-366). `now` is
`time.monotonic()`; `res` is the outcome of the snapshot script; `refreshOk`
tells whether `driver.refresh()` would succeed (when it raises, the caught
exception leaves the reload bookkeeping unwritten). -/
def error_recover_tick (c : YouTubeController) (now : ℚ) (res : SnapResult)
    (refreshOk : Bool) : TickOut :=
  if c.driver = false then ⟨c, false, []⟩
  else if now - c.last_check_ts < 1 then ⟨c, false, []⟩
  else
    let c1 := { c with last_check_ts := now }
    match res with
    | .scriptError => ⟨c1, false, [.execScript .snapshotRead]⟩
    | .nonDict => ⟨c1, false, [.execScript .snapshotRead]⟩
    | .ok s =>
      let p := stuckUpdate c1 now s
      if p.2 then
        if p.1.reload_backoff_s ≤ now - p.1.last_reload_ts then
          if refreshOk then
            ⟨{ p.1 with
                last_reload_ts := now
                reload_backoff_s :=
                  min (p.1.reload_backoff_s * 2) p.1.reload_backoff_max_s },
              true, [.execScript .snapshotRead, .refresh]⟩
          else ⟨p.1, true, [.execScript .snapshotRead, .refresh]⟩
        else ⟨p.1, false, [.execScript .snapshotRead]⟩
      else ⟨p.1, false, [.execScript .snapshotRead]⟩

/-- `should_reload` as computed by a tick that reads snapshot `s`. -/
def should_reload (c : YouTubeController) (now : ℚ) (s : Snapshot) : Bool :=
  (stuckUpdate c now s).2

/-- The local `norm_proxy` helper of `start` / `open`: `None`/blank collapses
to `None`, the string is stripped, and a scheme `http://` is prepended when the
string contains no `://`. -/
def normProxy (p : Option String) : Option String :=
  match p with
  | none => none
  | some s =>
    if s = "" then none
    else
      let s := pyStrip s
      if s = "" then none
      else if strHasInfix s "://" then some s
      else some ("http://" ++ s)

/-- `YouTubeController.start` (lines 43-177). The launch of an actual browser
is external; `launchOk` says whether any of the attempted launches succeeds.
Returns the new state and `true` on normal return, `false` when the final
`RuntimeError` is raised. When a driver is already live the method returns at
once, touching nothing. -/
def start (c : YouTubeController) (proxy profile_dir : Option String)
    (launchOk : Bool) : YouTubeController × Bool :=
  if c.driver then (c, true)
  else
    let c := { c with
      proxy := normProxy proxy
      profile_dir := profile_dir.map pyStrip }
    if launchOk then ({ c with driver := true }, true)
    else (c, false)

/-- `YouTubeController.stop` (lines 179-182). -/
def stop (c : YouTubeController) : YouTubeController :=
  if c.driver then { c with driver := false } else c

/-- `YouTubeController.is_playing` (lines 231-237): with no driver the answer
is `false` and no script runs; otherwise `pagePlaying` stands for the coerced
result of the query script (an exception is reported as `false` by the caller
of the script, which the input also covers). -/
def is_playing (c : YouTubeController) (pagePlaying : Bool) :
    Bool × List Effect :=
  if c.driver then (pagePlaying, [.execScript .queryPlaying]) else (false, [])

/-- `YouTubeController._exec_js` / `exec_js` (lines 251-257): a no-op without a
driver. The returned effect list records whether the script was executed. -/
def exec_js (c : YouTubeController) (tag : ScriptTag) : List Effect :=
  if c.driver then [.execScript tag] else []

/-- `YouTubeController.play` (lines 222-223). -/
def play (c : YouTubeController) : YouTubeController × List Effect :=
  (c, exec_js c .playVid)

/-- `YouTubeController.pause` (lines 225-226). -/
def pause (c : YouTubeController) : YouTubeController × List Effect :=
  (c, exec_js c .pauseVid)

/-- `YouTubeController.next` (lines 228-229). -/
def next (c : YouTubeController) : YouTubeController × List Effect :=
  (c, exec_js c .nextBtn)

/-- `YouTubeController.skip_ads_tick` (lines 259-277). -/
def skip_ads_tick (c : YouTubeController) : YouTubeController × List Effect :=
  (c, exec_js c .adSkip)

/-- `YouTubeController.toggle_play_pause` (lines 239-249): queries the page,
then issues the opposite action; returns the state, the reported
"now playing" boolean, and the driver interactions. -/
def toggle_play_pause (c : YouTubeController) (pagePlaying : Bool) :
    YouTubeController × Bool × List Effect :=
  let q := is_playing c pagePlaying
  if q.1 then
    let p := pause c
    (p.1, false, q.2 ++ p.2)
  else
    let p := play c
    (p.1, true, q.2 ++ p.2)

end YouTubeController

/-! URL model for `open`'s normalization step.  `open` parses the URL with
`urllib.parse.urlparse`; we embed URLs at that parsed level, with the query
already split into key/value pairs as `parse_qsl` yields them. -/

/-- A parsed URL (`urllib.parse.ParseResult`), query as `parse_qsl` pairs. -/
structure ParsedUrl where
  scheme : String
  netloc : String
  path : String
  params : String
  query : List (String × String)
  fragment : String
  deriving DecidableEq, Repr

/-- Python `dict` update for one key/value pair: an existing key keeps its
slot and takes the new value, a fresh key is appended. -/
def dictInsert (d : List (String × String)) (kv : String × String) :
    List (String × String) :=
  if d.any (fun p => p.1 = kv.1) then
    d.map (fun p => if p.1 = kv.1 then (p.1, kv.2) else p)
  else d ++ [kv]

/-- `dict(pairs)` on an association list (first-occurrence order, last value
wins), as built by `dict(parse_qsl(p.query))`. -/
def toDict (l : List (String × String)) : List (String × String) :=
  l.foldl dictInsert []

/-- Python `dict.setdefault k v`: append `(k, v)` only when `k` is absent. -/
def setdefault (d : List (String × String)) (k v : String) :
    List (String × String) :=
  if d.any (fun p => p.1 = k) then d else d ++ [(k, v)]

/-- Value associated with key `k` in an association list (first match). -/
def qlookup : List (String × String) → String → Option String
  | [], _ => none
  | p :: t, k => if p.1 = k then some p.2 else qlookup t k

/-- Value of the LAST pair with key `k`, i.e. the value `dict` retains. -/
def lastVal : List (String × String) → String → Option String
  | [], _ => none
  | p :: t, k => (lastVal t k).or (if p.1 = k then some p.2 else none)

namespace YouTubeController

/-- The URL rewrite inside `open` (lines 211-219): on a `youtube.com` watch
URL, rebuild the query as `dict(parse_qsl(q))` with `autoplay` and `mute`
defaulted to `"1"`; any other URL passes through untouched. -/
def rewriteWatchUrl (u : ParsedUrl) : ParsedUrl :=
  if strEndsWith u.netloc "youtube.com" && strStartsWith u.path "/watch" then
    let q := toDict u.query
    let q := setdefault q "autoplay" "1"
    let q := setdefault q "mute" "1"
    { u with query := q }
  else u

/-- `YouTubeController.open` (lines 184-220): restart the driver when the
normalized proxy/profile differ from the live ones, then navigate to the
rewritten URL.  Returns the new state and `some target` when `driver.get`
is reached (`none` when the start raised and the call aborted). -/
def openUrl (c : YouTubeController) (url : ParsedUrl)
    (proxy profile_dir : Option String) (launchOk : Bool) :
    YouTubeController × Option ParsedUrl :=
  let desired := normProxy proxy
  let desiredProfile := profile_dir.map pyStrip
  let r :=
    if c.driver = false then start c desired desiredProfile launchOk
    else if desired ≠ c.proxy ∨ desiredProfile ≠ c.profile_dir then
      start (stop c) desired desiredProfile launchOk
    else (c, true)
  if r.2 = false ∨ r.1.driver = false then (r.1, none)
  else (r.1, some (rewriteWatchUrl url))

end YouTubeController

/-! Shuffle queue model from `gui/main_window.py` (`MainWindow`): the list
widget's row texts, the shuffled `play_order`, and the `play_pos` pointer.
`random.shuffle` is abstracted as a caller-supplied reordering `sh`; theorems
assume only that `sh l` is a permutation of `l`. -/

/-- The queue-relevant state of `MainWindow`. -/
structure QueueState where
  urls : List String
  play_order : List Nat
  play_pos : Int
  deriving DecidableEq, Repr

namespace QueueState

/-- Rows whose (stripped) text is non-empty — exactly the rows
`_rebuild_shuffle_order` collects into `play_order` before shuffling. -/
def eligibleRows (urls : List String) : List Nat :=
  (List.range urls.length).filter (fun i => pyStrip (urls.getD i "") ≠ "")

/-- `MainWindow._rebuild_shuffle_order` (lines 181-207), with the cosmetic
mark/color resets omitted (they feed back into no decision). -/
def rebuildOrder (sh : List Nat → List Nat) (σ : QueueState) : QueueState :=
  { σ with play_order := sh (eligibleRows σ.urls), play_pos := -1 }

/-- Python list indexing `l[i]`: negative indices count from the end; an
out-of-range index raises (modelled as `none`). -/
def pyIdx (l : List Nat) (i : Int) : Option Nat :=
  if 0 ≤ i then l.get? i.toNat
  else if 0 ≤ (l.length : Int) + i then l.get? ((l.length : Int) + i).toNat
  else none

/-- The tail of `next_video` after the pointer is in place: fetch the row,
read its text, and return the stripped URL when non-empty.  `none` outputs
stand for the `Next failed` / `No valid item` / `Empty URL` status paths. -/
def fetchAt (σ : QueueState) (r : Nat) : QueueState × Option String × Nat :=
  match pyIdx σ.play_order σ.play_pos with
  | none => (σ, none, r)
  | some row =>
    match σ.urls.get? row with
    | none => (σ, none, r)
    | some txt =>
      let url := pyStrip txt
      if url = "" then (σ, none, r) else (σ, some url, r)

/-- `MainWindow.next_video` (lines 235-268).  Returns the new state, the URL
opened (`none` when no `ctrl.open` happened), and how many times
`_rebuild_shuffle_order` ran during the call. -/
def nextVideo (sh : List Nat → List Nat) (σ : QueueState) :
    QueueState × Option String × Nat :=
  if σ.urls.length = 0 then (σ, none, 0)
  else
    let stale := σ.play_order.isEmpty ||
      σ.play_order.any (fun i => σ.urls.length ≤ i)
    let σ1 := if stale then rebuildOrder sh σ else σ
    let r1 := if stale then 1 else 0
    let pos := σ1.play_pos + 1
    if (σ1.play_order.length : Int) ≤ pos then
      let σ2 := rebuildOrder sh σ1
      if σ2.play_order.isEmpty then (σ2, none, r1 + 1)
      else fetchAt { σ2 with play_pos := 0 } (r1 + 1)
    else fetchAt { σ1 with play_pos := pos } r1

/-- `n` successive `next_video` calls, collecting the opened URLs in order. -/
def advanceRun (sh : List Nat → List Nat) :
    QueueState → Nat → QueueState × List (Option String)
  | σ, 0 => (σ, [])
  | σ, n + 1 =>
    let p := nextVideo sh σ
    let q := advanceRun sh p.1 n
    (q.1, p.2.1 :: q.2)

end QueueState

/-! Helper lemmas about `stuckUpdate`. -/

namespace YouTubeController

/-- `stuckUpdate` never writes the reload timestamp, the check timestamp, the
backoff ceiling, or the driver/config fields. -/
theorem stuckUpdate_preserves (c : YouTubeController) (now : ℚ) (s : Snapshot) :
    (stuckUpdate c now s).1.last_reload_ts = c.last_reload_ts ∧
    (stuckUpdate c now s).1.last_check_ts = c.last_check_ts ∧
    (stuckUpdate c now s).1.reload_backoff_max_s = c.reload_backoff_max_s ∧
    (stuckUpdate c now s).1.driver = c.driver := by
  unfold stuckUpdate
  repeat' split
  all_goals simp

/-- `stuckUpdate` either leaves the whole state fixed and reports `true`, or
reports `false`. -/
theorem stuckUpdate_cases (c : YouTubeController) (now : ℚ) (s : Snapshot) :
    stuckUpdate c now s = (c, true) ∨ (stuckUpdate c now s).2 = false := by
  unfold stuckUpdate
  repeat' split
  all_goals simp

/-- When `stuckUpdate` reports `should_reload = true`, it changed nothing. -/
theorem stuckUpdate_true_fix (c : YouTubeController) (now : ℚ) (s : Snapshot)
    (h : (stuckUpdate c now s).2 = true) : (stuckUpdate c now s).1 = c := by
  rcases stuckUpdate_cases c now s with he | hf
  · rw [he]
  · simp [hf] at h

end YouTubeController

/-- C9: an error-recovery tick invoked less than one second after the previous
check returns immediately: no snapshot is read (no driver interaction at all)
and the whole controller state — the check timestamp included — is returned
unchanged. -/
theorem tick_throttled_noop (c : YouTubeController) (now : ℚ)
    (res : YouTubeController.SnapResult) (refreshOk : Bool)
    (hthr : now - c.last_check_ts < 1) :
    YouTubeController.error_recover_tick c now res refreshOk = ⟨c, false, []⟩ := by
  unfold YouTubeController.error_recover_tick
  cases hd : c.driver <;> simp [hthr]

/-- Witness for C9 at a concrete state: a tick 0.5s after the last check. -/
theorem tick_throttled_noop_witness :
    YouTubeController.error_recover_tick YouTubeController.init (1/2)
      .scriptError true = ⟨YouTubeController.init, false, []⟩ :=
  tick_throttled_noop YouTubeController.init (1/2) .scriptError true
    (by norm_num [YouTubeController.init])

/-- C10: on a cold session, `toggle_play_pause` reports `true` ("now playing"):
`is_playing` answers `false` without a driver, so the play branch is taken (a
silent no-op) and `True` is returned. -/
theorem cold_toggle_returns_true (c : YouTubeController) (pagePlaying : Bool)
    (hcold : c.driver = false) :
    (YouTubeController.toggle_play_pause c pagePlaying).2.1 = true := by
  simp [YouTubeController.toggle_play_pause, YouTubeController.is_playing,
    YouTubeController.play, YouTubeController.exec_js, hcold]

/-- Witness for C10 on the freshly constructed controller. -/
theorem cold_toggle_returns_true_witness :
    (YouTubeController.toggle_play_pause YouTubeController.init true).2.1 = true :=
  cold_toggle_returns_true YouTubeController.init true rfl

/-- C8: on a cold session (no driver handle), `toggle_play_pause`, `next`, the
ad-skip tick, and the error-recovery tick return the state unchanged and
perform no driver interaction (empty effect trace); all four are total
functions, i.e. never raise. -/
theorem cold_ops_noop (c : YouTubeController) (pagePlaying : Bool) (now : ℚ)
    (res : YouTubeController.SnapResult) (refreshOk : Bool)
    (hcold : c.driver = false) :
    YouTubeController.toggle_play_pause c pagePlaying = (c, true, []) ∧
    YouTubeController.next c = (c, []) ∧
    YouTubeController.skip_ads_tick c = (c, []) ∧
    YouTubeController.error_recover_tick c now res refreshOk = ⟨c, false, []⟩ := by
  refine ⟨?_, ?_, ?_, ?_⟩ <;>
    simp [YouTubeController.toggle_play_pause, YouTubeController.is_playing,
      YouTubeController.play, YouTubeController.next,
      YouTubeController.skip_ads_tick, YouTubeController.exec_js,
      YouTubeController.error_recover_tick, hcold]

/-- Witness for C8 on the freshly constructed controller. -/
theorem cold_ops_noop_witness :
    YouTubeController.toggle_play_pause YouTubeController.init false
      = (YouTubeController.init, true, []) ∧
    YouTubeController.next YouTubeController.init = (YouTubeController.init, []) ∧
    YouTubeController.skip_ads_tick YouTubeController.init
      = (YouTubeController.init, []) ∧
    YouTubeController.error_recover_tick YouTubeController.init 5 .nonDict false
      = ⟨YouTubeController.init, false, []⟩ :=
  cold_ops_noop YouTubeController.init false 5 .nonDict false rfl

/-- A live controller configured with proxy `http://a`, used to exhibit the
behaviour of `start` / `open` on an already-running driver. -/
def liveCtrlA : YouTubeController :=
  { YouTubeController.init with driver := true, proxy := some "http://a" }

/-- C6 counterexample: with a driver already running under proxy `http://a`,
`start` called with the different proxy `b` succeeds silently as a complete
no-op (old configuration kept) instead of failing with a
`ConfigurationChanged` condition. -/
theorem start_reconfig_no_failure :
    YouTubeController.normProxy (some "b") ≠ liveCtrlA.proxy ∧
    YouTubeController.start liveCtrlA (some "b") none true = (liveCtrlA, true) := by
  constructor
  · decide
  · rfl

/-- C6 amended: when a driver is already running, `start` is unconditionally a
no-op that returns normally, whatever the requested parameters — it never
fails, and differing proxy/profile parameters are silently ignored (the
parameter check lives in `open`, which restarts the driver itself). -/
theorem start_running_noop (c : YouTubeController)
    (proxy profile_dir : Option String) (launchOk : Bool)
    (hrun : c.driver = true) :
    YouTubeController.start c proxy profile_dir launchOk = (c, true) := by
  simp [YouTubeController.start, hrun]

/-- Witness for the amended C6 at the concrete live controller. -/
theorem start_running_noop_witness :
    YouTubeController.start liveCtrlA (some "b") (some "p") false
      = (liveCtrlA, true) :=
  start_running_noop liveCtrlA (some "b") (some "p") false rfl

/-- A live controller with non-initial recovery state, used to show `open`
does not reset it. -/
def liveCtrlRec : YouTubeController :=
  { YouTubeController.init with
      driver := true
      last_check_ts := 99
      last_reload_ts := 100
      last_video_time := some 5
      last_video_time_ts := 90
      reload_backoff_s := 40 }

/-- A plain YouTube watch URL, parsed. -/
def watchUrlX : ParsedUrl :=
  ⟨"https", "www.youtube.com", "/watch", "", [("v", "X")], ""⟩

/-- C7 counterexample: an `open` that succeeds (a navigation target is
produced) leaves the recovery state exactly as it was — `backoffSeconds`
stays at 40 instead of returning to the 10s floor, the last-observed media
time is not cleared, and the reload timestamps keep their old values. -/
theorem open_does_not_reset_recovery :
    (YouTubeController.openUrl liveCtrlRec watchUrlX none none true).2.isSome = true ∧
    (YouTubeController.openUrl liveCtrlRec watchUrlX none none true).1.reload_backoff_s = 40 ∧
    (YouTubeController.openUrl liveCtrlRec watchUrlX none none true).1.last_video_time = some 5 ∧
    (YouTubeController.openUrl liveCtrlRec watchUrlX none none true).1.last_reload_ts = 100 ∧
    (YouTubeController.openUrl liveCtrlRec watchUrlX none none true).1.last_check_ts = 99 := by
  refine ⟨rfl, ?_, ?_, ?_, ?_⟩ <;> rfl

/-- The five recovery-state fields, bundled. -/
def recFields (c : YouTubeController) : ℚ × ℚ × Option ℚ × ℚ × ℚ :=
  (c.last_check_ts, c.last_reload_ts, c.last_video_time,
    c.last_video_time_ts, c.reload_backoff_s)

theorem recFields_start (c : YouTubeController) (p q : Option String)
    (ok : Bool) : recFields (YouTubeController.start c p q ok).1 = recFields c := by
  unfold YouTubeController.start
  repeat' split
  all_goals rfl

theorem recFields_stop (c : YouTubeController) :
    recFields (YouTubeController.stop c) = recFields c := by
  unfold YouTubeController.stop
  split <;> rfl

/-- C7 amended: `open` (successful or not) never touches the recovery state;
those fields are set to their initial floor only by the constructor
(`init.reload_backoff_s = 10`, etc.). -/
theorem open_preserves_recovery (c : YouTubeController) (url : ParsedUrl)
    (proxy profile_dir : Option String) (launchOk : Bool) :
    (YouTubeController.openUrl c url proxy profile_dir launchOk).1.last_check_ts = c.last_check_ts ∧
    (YouTubeController.openUrl c url proxy profile_dir launchOk).1.last_reload_ts = c.last_reload_ts ∧
    (YouTubeController.openUrl c url proxy profile_dir launchOk).1.last_video_time = c.last_video_time ∧
    (YouTubeController.openUrl c url proxy profile_dir launchOk).1.last_video_time_ts = c.last_video_time_ts ∧
    (YouTubeController.openUrl c url proxy profile_dir launchOk).1.reload_backoff_s = c.reload_backoff_s ∧
    YouTubeController.init.last_video_time = none ∧
    YouTubeController.init.reload_backoff_s = 10 := by
  have key : recFields (YouTubeController.openUrl c url proxy profile_dir launchOk).1
      = recFields c := by
    unfold YouTubeController.openUrl
    have h1 : ∀ (r : YouTubeController × Bool) (t : ParsedUrl),
        ((if r.2 = false ∨ r.1.driver = false then (r.1, (none : Option ParsedUrl))
          else (r.1, some t))).1 = r.1 := by
      intro r t; split <;> rfl
    rw [h1]
    split
    · exact recFields_start ..
    · split
      · exact (recFields_start ..).trans (recFields_stop c)
      · rfl
  have h := Prod.mk.injEq .. ▸ key
  simp only [recFields, Prod.mk.injEq] at h
  exact ⟨h.1, h.2.1, h.2.2.1, h.2.2.2.1, h.2.2.2.2, rfl, rfl⟩

namespace YouTubeController

/-- On a live, unthrottled session, the tick is the snapshot processing
followed by the backoff-gated reload. -/
theorem tick_ok (c : YouTubeController) (now : ℚ) (s : Snapshot)
    (refreshOk : Bool) (hd : c.driver = true)
    (ht : 1 ≤ now - c.last_check_ts) :
    error_recover_tick c now (.ok s) refreshOk =
      (if (stuckUpdate { c with last_check_ts := now } now s).2 then
        if (stuckUpdate { c with last_check_ts := now } now s).1.reload_backoff_s
            ≤ now - (stuckUpdate { c with last_check_ts := now } now s).1.last_reload_ts then
          if refreshOk then
            ⟨{ (stuckUpdate { c with last_check_ts := now } now s).1 with
                last_reload_ts := now
                reload_backoff_s :=
                  min ((stuckUpdate { c with last_check_ts := now } now s).1.reload_backoff_s * 2)
                    (stuckUpdate { c with last_check_ts := now } now s).1.reload_backoff_max_s },
              true, [.execScript .snapshotRead, .refresh]⟩
          else ⟨(stuckUpdate { c with last_check_ts := now } now s).1, true,
            [.execScript .snapshotRead, .refresh]⟩
        else ⟨(stuckUpdate { c with last_check_ts := now } now s).1, false,
          [.execScript .snapshotRead]⟩
      else ⟨(stuckUpdate { c with last_check_ts := now } now s).1, false,
        [.execScript .snapshotRead]⟩) := by
  have ht' : ¬ now - c.last_check_ts < 1 := not_lt.mpr ht
  unfold error_recover_tick
  simp only [hd, Bool.true_eq_false, if_false, ht', if_false]

/-- `stuckUpdate` in the progress case: new sample recorded, backoff relaxed
exactly when the last reload is more than 15s in the past, no reload flagged. -/
theorem stuckUpdate_progress (c : YouTubeController) (now tf lvt : ℚ)
    (s : Snapshot) (herr : s.hasErr = false) (hts : s.t = some tf)
    (hlvt : c.last_video_time = some lvt) (hadv : lvt + 1/100 < tf) :
    stuckUpdate c now s =
      (if 15 < now - c.last_reload_ts then
        ({ c with
            last_video_time := some tf
            last_video_time_ts := now
            reload_backoff_s := 10 }, false)
      else
        ({ c with
            last_video_time := some tf
            last_video_time_ts := now }, false)) := by
  unfold stuckUpdate
  rw [hts, hlvt]
  simp only [herr, Bool.false_eq_true, if_false, if_pos hadv]

/-- `stuckUpdate` in the stuck case (no progress beyond the epsilon): state
untouched, reload flagged exactly by the paused/readyState/stall test. -/
theorem stuckUpdate_noProgress (c : YouTubeController) (now tf lvt : ℚ)
    (s : Snapshot) (herr : s.hasErr = false) (hts : s.t = some tf)
    (hlvt : c.last_video_time = some lvt) (hadv : ¬ lvt + 1/100 < tf) :
    stuckUpdate c now s =
      (c, decide (s.paused = some false ∧ 2 ≤ s.rs ∧ 20 < now - c.last_video_time_ts)) := by
  unfold stuckUpdate
  rw [hts, hlvt]
  simp only [herr, Bool.false_eq_true, if_false, if_neg hadv]
  split
  · simp_all
  · simp_all

end YouTubeController

/-- C3: on a tick that reads a snapshot whose media time advanced by more than
the 0.01s epsilon over the last observation, the last-observed-time fields are
updated to the new sample, `backoffSeconds` resets to 10 exactly when more
than 15 seconds have elapsed since the last reload (otherwise it is left
alone), and no reload fires on such a tick. -/
theorem tick_progress_updates (c : YouTubeController) (now tf lvt : ℚ)
    (s : YouTubeController.Snapshot) (refreshOk : Bool)
    (hd : c.driver = true) (ht : 1 ≤ now - c.last_check_ts)
    (herr : s.hasErr = false) (hts : s.t = some tf)
    (hlvt : c.last_video_time = some lvt) (hadv : lvt + 1/100 < tf) :
    (YouTubeController.error_recover_tick c now (.ok s) refreshOk).ctrl.last_video_time = some tf ∧
    (YouTubeController.error_recover_tick c now (.ok s) refreshOk).ctrl.last_video_time_ts = now ∧
    (15 < now - c.last_reload_ts →
      (YouTubeController.error_recover_tick c now (.ok s) refreshOk).ctrl.reload_backoff_s = 10) ∧
    (¬ 15 < now - c.last_reload_ts →
      (YouTubeController.error_recover_tick c now (.ok s) refreshOk).ctrl.reload_backoff_s
        = c.reload_backoff_s) ∧
    (YouTubeController.error_recover_tick c now (.ok s) refreshOk).fired = false := by
  rw [YouTubeController.tick_ok c now s refreshOk hd ht,
    YouTubeController.stuckUpdate_progress { c with last_check_ts := now }
      now tf lvt s herr hts hlvt hadv]
  by_cases h15 : 15 < now - c.last_reload_ts <;> simp [h15]

/-- A live controller that has observed media time 5s. -/
def progressCtrl : YouTubeController :=
  { YouTubeController.init with driver := true, last_video_time := some 5 }

/-- A snapshot with the media advanced to 6s, unpaused, readyState 4. -/
def progressSnap : YouTubeController.Snapshot := ⟨false, some 6, some false, 4⟩

/-- Witness for C3: a tick at t=20 seeing 5s → 6s progress resets the backoff
(the last reload being >15s in the past) and fires nothing. -/
theorem tick_progress_updates_witness :
    (YouTubeController.error_recover_tick progressCtrl 20 (.ok progressSnap) true).ctrl.last_video_time = some 6 ∧
    (YouTubeController.error_recover_tick progressCtrl 20 (.ok progressSnap) true).ctrl.last_video_time_ts = 20 ∧
    (YouTubeController.error_recover_tick progressCtrl 20 (.ok progressSnap) true).ctrl.reload_backoff_s = 10 ∧
    (YouTubeController.error_recover_tick progressCtrl 20 (.ok progressSnap) true).fired = false := by
  have h := tick_progress_updates progressCtrl 20 6 5 progressSnap true rfl
    (by norm_num [progressCtrl, YouTubeController.init]) rfl rfl rfl (by norm_num)
  exact ⟨h.1, h.2.1,
    h.2.2.1 (by norm_num [progressCtrl, YouTubeController.init]), h.2.2.2.2⟩

namespace YouTubeController

/-- `stuckUpdate` when the error overlay is present. -/
theorem stuckUpdate_err (c : YouTubeController) (now : ℚ) (s : Snapshot)
    (h : s.hasErr = true) : stuckUpdate c now s = (c, true) := by
  unfold stuckUpdate
  simp [h]

/-- `stuckUpdate` when there is no media element (`t` null). -/
theorem stuckUpdate_noVideo (c : YouTubeController) (now : ℚ) (s : Snapshot)
    (herr : s.hasErr = false) (hts : s.t = none) :
    stuckUpdate c now s = (c, false) := by
  unfold stuckUpdate
  rw [hts]
  simp [herr]

/-- `stuckUpdate` on the first media-time sample: record it, no reload. -/
theorem stuckUpdate_firstSample (c : YouTubeController) (now tf : ℚ)
    (s : Snapshot) (herr : s.hasErr = false) (hts : s.t = some tf)
    (hlvt : c.last_video_time = none) :
    stuckUpdate c now s =
      ({ c with last_video_time := some tf, last_video_time_ts := now }, false) := by
  unfold stuckUpdate
  rw [hts, hlvt]
  simp [herr]

end YouTubeController

/-- The spec's decision rule for "a reload is warranted", read off §4.4 of the
specification: an error overlay is detected, or — relative to the last
observation, which presupposes a previous media-time sample — no progress
beyond the 0.01s epsilon was observed, the media is not paused,
`readyState >= 2`, and more than 20 seconds have elapsed since the last
observed progress. -/
def specReloadWarranted (c : YouTubeController) (now : ℚ)
    (s : YouTubeController.Snapshot) : Prop :=
  s.hasErr = true ∨
    (∃ tf lvt : ℚ, s.t = some tf ∧ c.last_video_time = some lvt ∧
      tf ≤ lvt + 1/100 ∧ s.paused = some false ∧ 2 ≤ s.rs ∧
      20 < now - c.last_video_time_ts)

/-- The code's `should_reload` flag agrees with the spec's decision rule, for
any controller state and snapshot. -/
theorem should_reload_spec_iff (c : YouTubeController) (now : ℚ)
    (s : YouTubeController.Snapshot) :
    YouTubeController.should_reload c now s = true ↔ specReloadWarranted c now s := by
  cases he : s.hasErr
  · cases hts : s.t with
    | none =>
      rw [YouTubeController.should_reload,
        YouTubeController.stuckUpdate_noVideo c now s he hts]
      simp [specReloadWarranted, he, hts]
    | some tf =>
      rcases hlvt : c.last_video_time with _ | lvt
      · have h2 : (YouTubeController.stuckUpdate c now s).2 = false := by
          rw [YouTubeController.stuckUpdate_firstSample c now tf s he hts hlvt]
        rw [YouTubeController.should_reload, h2]
        simp only [Bool.false_eq_true, false_iff, specReloadWarranted]
        rintro (h | ⟨tf', lvt', _, hlvt', _, _, _, _⟩)
        · simp [he] at h
        · rw [hlvt'] at hlvt
          cases hlvt
      · by_cases hadv : lvt + 1/100 < tf
        · have h2 : (YouTubeController.stuckUpdate c now s).2 = false := by
            rw [YouTubeController.stuckUpdate_progress c now tf lvt s he hts hlvt hadv]
            split <;> rfl
          rw [YouTubeController.should_reload, h2]
          simp only [Bool.false_eq_true, false_iff, specReloadWarranted]
          rintro (h | ⟨tf', lvt', htf', hlvt', hle, _, _, _⟩)
          · simp [he] at h
          · rw [hts] at htf'
            rw [hlvt] at hlvt'
            cases htf'
            cases hlvt'
            exact absurd hadv (not_lt.mpr hle)
        · rw [YouTubeController.should_reload,
            YouTubeController.stuckUpdate_noProgress c now tf lvt s he hts hlvt hadv]
          simp only [decide_eq_true_eq, specReloadWarranted, he,
            Bool.false_eq_true, false_or]
          constructor
          · rintro ⟨h1, h2, h3⟩
            exact ⟨tf, lvt, hts, hlvt, not_lt.mp hadv, h1, h2, h3⟩
          · rintro ⟨tf', lvt', htf', hlvt', _, h1, h2, h3⟩
            exact ⟨h1, h2, h3⟩
  · rw [YouTubeController.should_reload,
      YouTubeController.stuckUpdate_err c now s he]
    simp [specReloadWarranted, he]

/-- C1: on every error-recovery tick that reads a snapshot (live driver, not
throttled), the computed `should_reload` agrees exactly with the spec's
decision rule; a warranted reload fires precisely when at least
`backoffSeconds` have elapsed since the previous reload; and a fired reload
(with the refresh succeeding) records the reload timestamp and doubles the
backoff, capped at 300. -/
theorem tick_reload_decision (c : YouTubeController) (now : ℚ)
    (s : YouTubeController.Snapshot) (refreshOk : Bool)
    (hd : c.driver = true) (ht : 1 ≤ now - c.last_check_ts)
    (hmax : c.reload_backoff_max_s = 300) :
    (YouTubeController.should_reload { c with last_check_ts := now } now s = true
      ↔ specReloadWarranted c now s) ∧
    ((YouTubeController.error_recover_tick c now (.ok s) refreshOk).fired = true
      ↔ (YouTubeController.should_reload { c with last_check_ts := now } now s = true
          ∧ c.reload_backoff_s ≤ now - c.last_reload_ts)) ∧
    ((YouTubeController.error_recover_tick c now (.ok s) refreshOk).fired = true →
      refreshOk = true →
      (YouTubeController.error_recover_tick c now (.ok s) refreshOk).ctrl.last_reload_ts = now ∧
      (YouTubeController.error_recover_tick c now (.ok s) refreshOk).ctrl.reload_backoff_s
        = min (c.reload_backoff_s * 2) 300) := by
  refine ⟨should_reload_spec_iff { c with last_check_ts := now } now s, ?_⟩
  rw [YouTubeController.tick_ok c now s refreshOk hd ht]
  by_cases hb : (YouTubeController.stuckUpdate
      { c with last_check_ts := now } now s).2 = true
  · have hfix := YouTubeController.stuckUpdate_true_fix
      { c with last_check_ts := now } now s hb
    rw [YouTubeController.should_reload, hfix, hb]
    by_cases hgate : c.reload_backoff_s ≤ now - c.last_reload_ts
    · cases refreshOk <;> simp [hgate, hmax]
    · simp [hgate]
  · have hb' : (YouTubeController.stuckUpdate
        { c with last_check_ts := now } now s).2 = false :=
      Bool.not_eq_true _ ▸ hb
    rw [YouTubeController.should_reload, hb']
    simp

/-- Witness for C1: on a live fresh session at t=12 with an error overlay in
the snapshot, the reload is warranted, fires (12 ≥ backoff 10), stamps the
reload time and doubles the backoff to 20. -/
theorem tick_reload_decision_witness :
    (YouTubeController.error_recover_tick liveCtrlA 12 (.ok ⟨true, none, none, 0⟩) true).fired = true ∧
    (YouTubeController.error_recover_tick liveCtrlA 12 (.ok ⟨true, none, none, 0⟩) true).ctrl.last_reload_ts = 12 ∧
    (YouTubeController.error_recover_tick liveCtrlA 12 (.ok ⟨true, none, none, 0⟩) true).ctrl.reload_backoff_s = 20 := by
  have h := tick_reload_decision liveCtrlA 12 ⟨true, none, none, 0⟩ true rfl
    (by norm_num [liveCtrlA, YouTubeController.init]) rfl
  have hw : YouTubeController.should_reload
      { liveCtrlA with last_check_ts := 12 } 12 ⟨true, none, none, 0⟩ = true :=
    h.1.mpr (Or.inl rfl)
  have hfired := h.2.1.mpr ⟨hw, by norm_num [liveCtrlA, YouTubeController.init]⟩
  have hres := h.2.2 hfired rfl
  refine ⟨hfired, hres.1, ?_⟩
  rw [hres.2]
  have hb : liveCtrlA.reload_backoff_s = 10 := rfl
  rw [hb]
  norm_num

namespace YouTubeController

/-- `stuckUpdate` leaves the backoff alone, or resets it to 10 — the latter
only on observed forward progress with the last reload >15s in the past (and
then no reload is flagged). -/
theorem stuckUpdate_backoff (c : YouTubeController) (now : ℚ) (s : Snapshot) :
    (stuckUpdate c now s).1.reload_backoff_s = c.reload_backoff_s ∨
    ((stuckUpdate c now s).1.reload_backoff_s = 10 ∧
      (stuckUpdate c now s).2 = false ∧ 15 < now - c.last_reload_ts ∧
      ∃ tf lvt : ℚ, s.hasErr = false ∧ s.t = some tf ∧
        c.last_video_time = some lvt ∧ lvt + 1/100 < tf) := by
  cases he : s.hasErr
  · cases hts : s.t with
    | none => left; rw [stuckUpdate_noVideo c now s he hts]
    | some tf =>
      rcases hlvt : c.last_video_time with _ | lvt
      · left; rw [stuckUpdate_firstSample c now tf s he hts hlvt]
      · by_cases hadv : lvt + 1/100 < tf
        · rw [stuckUpdate_progress c now tf lvt s he hts hlvt hadv]
          by_cases h15 : 15 < now - c.last_reload_ts
          · right
            rw [if_pos h15]
            exact ⟨rfl, rfl, h15, tf, lvt, rfl, rfl, rfl, hadv⟩
          · left; rw [if_neg h15]
        · left; rw [stuckUpdate_noProgress c now tf lvt s he hts hlvt hadv]
  · left; rw [stuckUpdate_err c now s he]

/-- `toggle_play_pause` never mutates the controller state. -/
theorem toggle_play_pause_fst (c : YouTubeController) (b : Bool) :
    (toggle_play_pause c b).1 = c := by
  unfold toggle_play_pause is_playing pause play exec_js
  cases hd : c.driver <;> cases b <;> rfl

/-- `open` preserves the bundled recovery fields (shared helper). -/
theorem recFields_openUrl (c : YouTubeController) (url : ParsedUrl)
    (proxy profile_dir : Option String) (launchOk : Bool) :
    recFields (openUrl c url proxy profile_dir launchOk).1 = recFields c := by
  unfold openUrl
  have h1 : ∀ (r : YouTubeController × Bool) (t : ParsedUrl),
      ((if r.2 = false ∨ r.1.driver = false then (r.1, (none : Option ParsedUrl))
        else (r.1, some t))).1 = r.1 := by
    intro r t; split <;> rfl
  rw [h1]
  split
  · exact recFields_start ..
  · split
    · exact (recFields_start ..).trans (recFields_stop c)
    · rfl

end YouTubeController

/-- A tick that observed forward media progress beyond the epsilon: the
snapshot was a dict with no error overlay, a media time, and a previous
sample exceeded by more than 0.01s. -/
def tickProgressed (c : YouTubeController) (res : YouTubeController.SnapResult) : Prop :=
  ∃ (s : YouTubeController.Snapshot) (tf lvt : ℚ), res = .ok s ∧
    s.hasErr = false ∧ s.t = some tf ∧ c.last_video_time = some lvt ∧
    lvt + 1/100 < tf

namespace YouTubeController

/-- A tick that bails out before reading anything (cold or throttled). -/
theorem tick_early (c : YouTubeController) (now : ℚ) (res : SnapResult)
    (refreshOk : Bool) (h : c.driver = false ∨ now - c.last_check_ts < 1) :
    error_recover_tick c now res refreshOk = ⟨c, false, []⟩ := by
  unfold error_recover_tick
  rcases h with h | h
  · simp [h]
  · cases hd : c.driver <;> simp [h]

/-- A tick whose snapshot read raises or returns a non-dict: only the check
timestamp advances. -/
theorem tick_noSnap (c : YouTubeController) (now : ℚ) (refreshOk : Bool)
    (res : SnapResult) (hd : c.driver = true) (ht : 1 ≤ now - c.last_check_ts)
    (hres : res = .scriptError ∨ res = .nonDict) :
    error_recover_tick c now res refreshOk =
      ⟨{ c with last_check_ts := now }, false, [.execScript .snapshotRead]⟩ := by
  unfold error_recover_tick
  rcases hres with rfl | rfl <;> simp [hd, not_lt.mpr ht]

end YouTubeController

/-- C2: `backoffSeconds` stays in [10, 300] across an error-recovery tick; it
grows only as the doubling (capped at 300) of a fired reload, shrinks only to
the floor 10 after observed forward progress with the last reload more than
15s in the past, starts at the floor, and no other controller operation
(`start`, `stop`, `open`, `toggle_play_pause`, `next`, `skip_ads_tick`,
`play`, `pause`) ever changes it. -/
theorem backoff_invariant (c : YouTubeController) (now : ℚ)
    (res : YouTubeController.SnapResult) (refreshOk : Bool) (url : ParsedUrl)
    (proxy profile_dir : Option String) (launchOk pagePlaying : Bool)
    (hlo : 10 ≤ c.reload_backoff_s) (hhi : c.reload_backoff_s ≤ 300)
    (hmax : c.reload_backoff_max_s = 300) :
    ((10 ≤ (YouTubeController.error_recover_tick c now res refreshOk).ctrl.reload_backoff_s ∧
      (YouTubeController.error_recover_tick c now res refreshOk).ctrl.reload_backoff_s ≤ 300) ∧
    (c.reload_backoff_s < (YouTubeController.error_recover_tick c now res refreshOk).ctrl.reload_backoff_s →
      (YouTubeController.error_recover_tick c now res refreshOk).fired = true ∧
      (YouTubeController.error_recover_tick c now res refreshOk).ctrl.reload_backoff_s
        = min (c.reload_backoff_s * 2) 300) ∧
    ((YouTubeController.error_recover_tick c now res refreshOk).ctrl.reload_backoff_s < c.reload_backoff_s →
      (YouTubeController.error_recover_tick c now res refreshOk).ctrl.reload_backoff_s = 10 ∧
      tickProgressed c res ∧ 15 < now - c.last_reload_ts)) ∧
    YouTubeController.init.reload_backoff_s = 10 ∧
    (YouTubeController.start c proxy profile_dir launchOk).1.reload_backoff_s = c.reload_backoff_s ∧
    (YouTubeController.stop c).reload_backoff_s = c.reload_backoff_s ∧
    (YouTubeController.openUrl c url proxy profile_dir launchOk).1.reload_backoff_s = c.reload_backoff_s ∧
    (YouTubeController.toggle_play_pause c pagePlaying).1.reload_backoff_s = c.reload_backoff_s ∧
    (YouTubeController.next c).1.reload_backoff_s = c.reload_backoff_s ∧
    (YouTubeController.skip_ads_tick c).1.reload_backoff_s = c.reload_backoff_s ∧
    (YouTubeController.play c).1.reload_backoff_s = c.reload_backoff_s ∧
    (YouTubeController.pause c).1.reload_backoff_s = c.reload_backoff_s := by
  have hof : ∀ a b : YouTubeController,
      recFields a = recFields b →
      a.reload_backoff_s = b.reload_backoff_s := by
    intro a b h
    simp only [recFields, Prod.mk.injEq] at h
    exact h.2.2.2.2
  refine ⟨?_, rfl,
    hof _ _ (recFields_start c proxy profile_dir launchOk),
    hof _ _ (recFields_stop c),
    hof _ _ (YouTubeController.recFields_openUrl c url proxy profile_dir launchOk),
    by rw [YouTubeController.toggle_play_pause_fst c pagePlaying],
    rfl, rfl, rfl, rfl⟩
  by_cases hd : c.driver = true
  · by_cases hthr : now - c.last_check_ts < 1
    · rw [YouTubeController.tick_early c now res refreshOk (Or.inr hthr)]
      exact ⟨⟨hlo, hhi⟩, fun h => absurd h (lt_irrefl _),
        fun h => absurd h (lt_irrefl _)⟩
    · have ht : 1 ≤ now - c.last_check_ts := not_lt.mp hthr
      cases res with
      | scriptError =>
        rw [YouTubeController.tick_noSnap c now refreshOk _ hd ht (Or.inl rfl)]
        exact ⟨⟨hlo, hhi⟩, fun h => absurd h (lt_irrefl _),
          fun h => absurd h (lt_irrefl _)⟩
      | nonDict =>
        rw [YouTubeController.tick_noSnap c now refreshOk _ hd ht (Or.inr rfl)]
        exact ⟨⟨hlo, hhi⟩, fun h => absurd h (lt_irrefl _),
          fun h => absurd h (lt_irrefl _)⟩
      | ok s =>
        rw [YouTubeController.tick_ok c now s refreshOk hd ht]
        by_cases hb : (YouTubeController.stuckUpdate
            { c with last_check_ts := now } now s).2 = true
        · have hfix := YouTubeController.stuckUpdate_true_fix
            { c with last_check_ts := now } now s hb
          by_cases hgate : c.reload_backoff_s ≤ now - c.last_reload_ts
          · cases refreshOk
            · simp only [hb, hfix, if_true]
              rw [if_pos hgate]
              simp only [Bool.false_eq_true, if_false]
              exact ⟨⟨hlo, hhi⟩, fun h => absurd h (lt_irrefl _),
                fun h => absurd h (lt_irrefl _)⟩
            · simp only [hb, hfix, if_true]
              rw [if_pos hgate]
              simp only [if_true]
              have hminmem : c.reload_backoff_s ≤ min (c.reload_backoff_s * 2) 300 :=
                le_min (by linarith) hhi
              refine ⟨⟨?_, ?_⟩, fun h => ⟨by trivial, by rw [hmax]⟩, fun h => ?_⟩
              · rw [hmax]
                exact le_min (by linarith) (by norm_num)
              · rw [hmax]
                exact min_le_right _ _
              · rw [hmax] at h
                exact absurd h (not_lt.mpr hminmem)
          · simp only [hb, hfix, if_true]
            rw [if_neg hgate]
            exact ⟨⟨hlo, hhi⟩, fun h => absurd h (lt_irrefl _),
              fun h => absurd h (lt_irrefl _)⟩
        · have hb0 : (YouTubeController.stuckUpdate
              { c with last_check_ts := now } now s).2 = false := by
            revert hb
            cases (YouTubeController.stuckUpdate
              { c with last_check_ts := now } now s).2 <;> simp
          simp only [hb0, Bool.false_eq_true, if_false]
          rcases YouTubeController.stuckUpdate_backoff
              { c with last_check_ts := now } now s with
            heq | ⟨h10, _, h15, tf, lvt, hherr, hht, hhlvt, hhadv⟩
          · rw [heq]
            exact ⟨⟨hlo, hhi⟩, fun h => absurd h (lt_irrefl _),
              fun h => absurd h (lt_irrefl _)⟩
          · rw [h10]
            exact ⟨⟨by norm_num, by norm_num⟩,
              fun h => absurd h (not_lt.mpr (by linarith)),
              fun h => ⟨rfl, ⟨s, tf, lvt, rfl, hherr, hht, hhlvt, hhadv⟩, h15⟩⟩
  · have hd0 : c.driver = false := by
      revert hd; cases c.driver <;> simp
    rw [YouTubeController.tick_early c now res refreshOk (Or.inl hd0)]
    exact ⟨⟨hlo, hhi⟩, fun h => absurd h (lt_irrefl _),
      fun h => absurd h (lt_irrefl _)⟩

/-- Witness for C2 at a live controller with backoff 40: a tick keeps the
backoff inside [10, 300], and `stop` leaves it untouched. -/
theorem backoff_invariant_witness :
    10 ≤ (YouTubeController.error_recover_tick liveCtrlRec 200
      (.ok ⟨true, none, none, 0⟩) true).ctrl.reload_backoff_s ∧
    (YouTubeController.error_recover_tick liveCtrlRec 200
      (.ok ⟨true, none, none, 0⟩) true).ctrl.reload_backoff_s ≤ 300 ∧
    (YouTubeController.stop liveCtrlRec).reload_backoff_s
      = liveCtrlRec.reload_backoff_s := by
  have h := backoff_invariant liveCtrlRec 200 (.ok ⟨true, none, none, 0⟩) true
    watchUrlX none none true true
    (by norm_num [liveCtrlRec, YouTubeController.init])
    (by norm_num [liveCtrlRec, YouTubeController.init]) rfl
  exact ⟨h.1.1.1, h.1.1.2, h.2.2.2.1⟩

/-! Association-list facts for the query-dict rewrite of `open`. -/

theorem qlookup_append (d1 d2 : List (String × String)) (k : String) :
    qlookup (d1 ++ d2) k = (qlookup d1 k).or (qlookup d2 k) := by
  induction d1 with
  | nil => rfl
  | cons p t ih =>
    by_cases hpk : p.1 = k <;> simp [qlookup, hpk, ih]

theorem qlookup_any (d : List (String × String)) (k : String) :
    d.any (fun p => p.1 = k) = (qlookup d k).isSome := by
  induction d with
  | nil => rfl
  | cons p t ih =>
    by_cases hpk : p.1 = k <;> simp [qlookup, hpk, ih]

theorem qlookup_mapUpdate (d : List (String × String)) (k v k' : String) :
    qlookup (d.map (fun p => if p.1 = k then (p.1, v) else p)) k' =
      (if k' = k then (qlookup d k).map (fun _ => v) else qlookup d k') := by
  induction d with
  | nil =>
    simp only [List.map_nil]
    split <;> rfl
  | cons p t ih =>
    by_cases hpk : p.1 = k
    · by_cases hk' : k' = k
      · subst hk'
        simp [qlookup, hpk, ih]
      · have hne : ¬ p.1 = k' := by rw [hpk]; exact fun hh => hk' hh.symm
        have hkk' : ¬ k = k' := fun hh => hk' hh.symm
        simp [qlookup, hpk, hne, hk', hkk', ih]
    · by_cases hpk' : p.1 = k'
      · have hk' : ¬ k' = k := by
          intro hh
          rw [hpk', hh] at hpk
          exact hpk rfl
        simp [qlookup, hpk, hpk', hk']
      · simp [qlookup, hpk, hpk', ih]

theorem qlookup_dictInsert (d : List (String × String)) (kv : String × String)
    (k' : String) :
    qlookup (dictInsert d kv) k' =
      (if k' = kv.1 then some kv.2 else qlookup d k') := by
  unfold dictInsert
  by_cases hany : d.any (fun p => p.1 = kv.1) = true
  · rw [if_pos hany, qlookup_mapUpdate]
    by_cases hk' : k' = kv.1
    · rw [if_pos hk', if_pos hk']
      obtain ⟨w, hw⟩ := Option.isSome_iff_exists.mp (qlookup_any d kv.1 ▸ hany)
      rw [hw]
      rfl
    · rw [if_neg hk', if_neg hk']
  · rw [if_neg hany, qlookup_append]
    have hnone : qlookup d kv.1 = none := by
      apply Option.not_isSome_iff_eq_none.mp
      rw [← qlookup_any]
      simpa using hany
    by_cases hk' : k' = kv.1
    · subst hk'
      rw [hnone]
      simp [qlookup]
    · have hne : ¬ kv.1 = k' := fun hh => hk' hh.symm
      rw [if_neg hk']
      simp [qlookup, hne]

theorem qlookup_foldl (l : List (String × String))
    (d : List (String × String)) (k : String) :
    qlookup (l.foldl dictInsert d) k = (lastVal l k).or (qlookup d k) := by
  induction l generalizing d with
  | nil => rfl
  | cons p t ih =>
    rw [List.foldl_cons, ih]
    simp only [lastVal]
    rw [qlookup_dictInsert]
    by_cases hpk : p.1 = k
    · rw [if_pos hpk.symm, if_pos hpk]
      cases lastVal t k <;> rfl
    · rw [if_neg (fun hh => hpk (Eq.symm hh)), if_neg hpk]
      cases lastVal t k <;> rfl

theorem qlookup_toDict (l : List (String × String)) (k : String) :
    qlookup (toDict l) k = lastVal l k := by
  rw [toDict, qlookup_foldl]
  cases lastVal l k <;> rfl

theorem qlookup_setdefault_self (d : List (String × String)) (k v : String) :
    qlookup (setdefault d k v) k = some ((qlookup d k).getD v) := by
  unfold setdefault
  by_cases hany : d.any (fun p => p.1 = k) = true
  · rw [if_pos hany]
    obtain ⟨w, hw⟩ := Option.isSome_iff_exists.mp (qlookup_any d k ▸ hany)
    rw [hw]
    rfl
  · rw [if_neg hany, qlookup_append]
    have hnone : qlookup d k = none := by
      apply Option.not_isSome_iff_eq_none.mp
      rw [← qlookup_any]
      simpa using hany
    rw [hnone]
    simp [qlookup]

theorem qlookup_setdefault_other (d : List (String × String)) (k v k' : String)
    (h : k' ≠ k) :
    qlookup (setdefault d k v) k' = qlookup d k' := by
  unfold setdefault
  split
  · rfl
  · rw [qlookup_append]
    have hne : ¬ k = k' := fun hh => h hh.symm
    simp [qlookup, hne]

/-- C5: navigation always targets `rewriteWatchUrl url`; on a URL whose host
ends in `youtube.com` and whose path starts with `/watch`, the rewritten query
binds `autoplay` and `mute` to the caller's value when one was supplied
(never overridden) and to `"1"` only when absent, leaves every other key at
its caller value, and touches no other URL component; any other URL is
navigated to unchanged. -/
theorem open_url_normalization (u : ParsedUrl) :
    (∀ (c : YouTubeController) (proxy profile_dir : Option String)
      (launchOk : Bool) (t : ParsedUrl),
      (YouTubeController.openUrl c u proxy profile_dir launchOk).2 = some t →
      t = YouTubeController.rewriteWatchUrl u) ∧
    (strEndsWith u.netloc "youtube.com" = true →
      strStartsWith u.path "/watch" = true →
      qlookup (YouTubeController.rewriteWatchUrl u).query "autoplay"
        = some ((lastVal u.query "autoplay").getD "1") ∧
      qlookup (YouTubeController.rewriteWatchUrl u).query "mute"
        = some ((lastVal u.query "mute").getD "1") ∧
      (∀ k : String, k ≠ "autoplay" → k ≠ "mute" →
        qlookup (YouTubeController.rewriteWatchUrl u).query k = lastVal u.query k) ∧
      (YouTubeController.rewriteWatchUrl u).scheme = u.scheme ∧
      (YouTubeController.rewriteWatchUrl u).netloc = u.netloc ∧
      (YouTubeController.rewriteWatchUrl u).path = u.path ∧
      (YouTubeController.rewriteWatchUrl u).params = u.params ∧
      (YouTubeController.rewriteWatchUrl u).fragment = u.fragment) ∧
    ((strEndsWith u.netloc "youtube.com" && strStartsWith u.path "/watch") = false →
      YouTubeController.rewriteWatchUrl u = u) := by
  refine ⟨?_, ?_, ?_⟩
  · intro c proxy profile_dir launchOk t h
    unfold YouTubeController.openUrl at h
    have h1 : ∀ (r : YouTubeController × Bool),
        ((if r.2 = false ∨ r.1.driver = false then (r.1, (none : Option ParsedUrl))
          else (r.1, some (YouTubeController.rewriteWatchUrl u)))).2 = some t →
        t = YouTubeController.rewriteWatchUrl u := by
      intro r hh
      split at hh
      · exact absurd hh (by simp)
      · exact (Option.some_inj.mp hh).symm
    exact h1 _ h
  · intro hnet hpath
    have hcond : (strEndsWith u.netloc "youtube.com" && strStartsWith u.path "/watch") = true := by
      rw [hnet, hpath]
      rfl
    unfold YouTubeController.rewriteWatchUrl
    rw [hcond]
    simp only [if_true]
    have hne : ("autoplay" : String) ≠ "mute" := by decide
    refine ⟨?_, ?_, ?_, by trivial, by trivial, by trivial, by trivial, by trivial⟩
    · rw [qlookup_setdefault_other _ _ _ _ hne, qlookup_setdefault_self,
        qlookup_toDict]
    · rw [qlookup_setdefault_self, qlookup_setdefault_other _ _ _ _ hne.symm,
        qlookup_toDict]
    · intro k hka hkm
      rw [qlookup_setdefault_other _ _ _ _ hkm, qlookup_setdefault_other _ _ _ _ hka,
        qlookup_toDict]
  · intro hcond
    unfold YouTubeController.rewriteWatchUrl
    rw [hcond]
    rfl

/-- A watch URL that already pins `autoplay=0`. -/
def watchUrlAutoplay0 : ParsedUrl :=
  ⟨"https", "www.youtube.com", "/watch", "", [("v", "X"), ("autoplay", "0")], ""⟩

/-- Witness for C5, the two examples of the spec: a bare watch URL gains
`autoplay=1` and `mute=1`; a watch URL carrying `autoplay=0` keeps it. -/
theorem open_url_normalization_witness :
    qlookup (YouTubeController.rewriteWatchUrl watchUrlX).query "autoplay" = some "1" ∧
    qlookup (YouTubeController.rewriteWatchUrl watchUrlX).query "mute" = some "1" ∧
    qlookup (YouTubeController.rewriteWatchUrl watchUrlAutoplay0).query "autoplay"
      = some "0" := by
  have h1 := (open_url_normalization watchUrlX).2.1 (by decide) (by decide)
  have h2 := (open_url_normalization watchUrlAutoplay0).2.1 (by decide) (by decide)
  exact ⟨h1.1.trans (by decide), h1.2.1.trans (by decide), h2.1.trans (by decide)⟩

namespace QueueState

/-- Membership in the eligible rows. -/
theorem mem_eligibleRows {urls : List String} {i : Nat} :
    i ∈ eligibleRows urls ↔ i < urls.length ∧ pyStrip (urls.getD i "") ≠ "" := by
  simp [eligibleRows, List.mem_filter, List.mem_range]

/-- The tail of `next_video` succeeds when the pointer sits on an eligible
row. -/
theorem fetchAt_eq (σ : QueueState) (r : Nat) (j : Nat)
    (hpos : σ.play_pos = (j : Int)) (hj : j < σ.play_order.length)
    (helig : ∀ i ∈ σ.play_order, i ∈ eligibleRows σ.urls) :
    fetchAt σ r = (σ, some (pyStrip (σ.urls.getD (σ.play_order.getD j 0) "")), r) := by
  have hget : σ.play_order.get? j = some (σ.play_order.getD j 0) := by
    rw [List.getD_eq_getElem?_getD, List.get?_eq_getElem?,
      List.getElem?_eq_getElem hj]
    rfl
  set row := σ.play_order.getD j 0 with hrowdef
  have hmem : row ∈ σ.play_order := List.get?_mem hget
  obtain ⟨hlt, hne2⟩ := mem_eligibleRows.mp (helig _ hmem)
  have hget2 : σ.urls.get? row = some (σ.urls.getD row "") := by
    rw [List.getD_eq_getElem?_getD, List.get?_eq_getElem?,
      List.getElem?_eq_getElem hlt]
    rfl
  unfold fetchAt pyIdx
  rw [hpos, if_pos (Int.ofNat_nonneg j), Int.toNat_ofNat]
  simp only [hget, hget2]
  rw [if_neg hne2]

end QueueState

namespace QueueState

/-- Rows of the play order point inside a non-empty URL list. -/
theorem urls_ne_nil_of_order (σ : QueueState)
    (helig : ∀ i ∈ σ.play_order, i ∈ eligibleRows σ.urls)
    (hne : σ.play_order ≠ []) : σ.urls.length ≠ 0 := by
  obtain ⟨i, hi⟩ := List.exists_mem_of_ne_nil σ.play_order hne
  have := (mem_eligibleRows.mp (helig i hi)).1
  omega

/-- The staleness test of `next_video` fails on a valid, non-empty order. -/
theorem stale_false (σ : QueueState)
    (helig : ∀ i ∈ σ.play_order, i ∈ eligibleRows σ.urls)
    (hne : σ.play_order ≠ []) :
    (σ.play_order.isEmpty ||
      σ.play_order.any (fun i => σ.urls.length ≤ i)) = false := by
  rw [Bool.or_eq_false_iff]
  constructor
  · simpa [List.isEmpty_iff] using hne
  · rw [List.any_eq_false]
    intro i hi
    have := (mem_eligibleRows.mp (helig i hi)).1
    simpa using (by omega : ¬ σ.urls.length ≤ i)

/-- One in-round `next_video` call: with a valid order and the pointer at
`j - 1` for `j` inside the order, the pointer advances to `j` and the row's
stripped URL is opened, with no rebuild. -/
theorem nextVideo_step (sh : List Nat → List Nat) (σ : QueueState) (j : Nat)
    (helig : ∀ i ∈ σ.play_order, i ∈ eligibleRows σ.urls)
    (hne : σ.play_order ≠ [])
    (hpos : σ.play_pos = (j : Int) - 1)
    (hj : j < σ.play_order.length) :
    nextVideo sh σ = ({ σ with play_pos := (j : Int) },
      some (pyStrip (σ.urls.getD (σ.play_order.getD j 0) "")), 0) := by
  have hurls := urls_ne_nil_of_order σ helig hne
  have hstale := stale_false σ helig hne
  have hposj : σ.play_pos + 1 = (j : Int) := by rw [hpos]; ring
  have hover : ¬ ((σ.play_order.length : Int) ≤ (j : Int)) := by
    exact_mod_cast not_le.mpr hj
  unfold nextVideo
  rw [if_neg hurls]
  simp only [hstale, Bool.false_eq_true, if_false, hposj]
  rw [if_neg hover]
  exact fetchAt_eq { σ with play_pos := (j : Int) } 0 j rfl hj helig

end QueueState

namespace QueueState

/-- A run of in-round advances: starting at pointer `j - 1`, `m` calls sweep
rows `j, j+1, …, j+m-1` of the order in sequence. -/
theorem advanceRun_steps (sh : List Nat → List Nat) (urls : List String)
    (o : List Nat) (helig : ∀ i ∈ o, i ∈ eligibleRows urls) (hne : o ≠ []) :
    ∀ (m j : Nat), j + m ≤ o.length →
    advanceRun sh ⟨urls, o, (j : Int) - 1⟩ m =
      (⟨urls, o, ((j + m : Nat) : Int) - 1⟩,
        ((o.drop j).take m).map (fun i => some (pyStrip (urls.getD i "")))) := by
  intro m
  induction m with
  | zero =>
    intro j _
    simp [advanceRun]
  | succ m ih =>
    intro j hjm
    have hj : j < o.length := by omega
    have hstep := nextVideo_step sh ⟨urls, o, (j : Int) - 1⟩ j helig hne rfl hj
    unfold advanceRun
    rw [hstep]
    have hcast : ((j : Int)) = ((j + 1 : Nat) : Int) - 1 := by push_cast; ring
    have hstate : ({ (⟨urls, o, (j : Int) - 1⟩ : QueueState) with
        play_pos := (j : Int) } : QueueState) = ⟨urls, o, ((j + 1 : Nat) : Int) - 1⟩ := by
      rw [← hcast]
    rw [hstate]
    dsimp only
    rw [ih (j + 1) (by omega)]
    have hdrop : o.drop j = o.get ⟨j, hj⟩ :: o.drop (j + 1) :=
      List.drop_eq_getElem_cons hj
    have hgetD : o.getD j 0 = o.get ⟨j, hj⟩ := by
      rw [List.getD_eq_getElem?_getD, List.getElem?_eq_getElem hj]
      rfl
    rw [hdrop, List.take_succ_cons, List.map_cons, hgetD]
    have hnat : j + 1 + m = j + (m + 1) := by omega
    rw [hnat]

end QueueState

namespace QueueState

/-- The round-boundary `next_video` call: with a valid non-empty order and the
pointer past the end, exactly one rebuild runs, the pointer restarts at 0, and
the first row of the fresh order is opened. -/
theorem nextVideo_wrap (sh : List Nat → List Nat) (urls : List String)
    (o : List Nat) (p : Int)
    (helig : ∀ i ∈ o, i ∈ eligibleRows urls) (hne : o ≠ [])
    (helig2 : ∀ i ∈ sh (eligibleRows urls), i ∈ eligibleRows urls)
    (hne2 : sh (eligibleRows urls) ≠ [])
    (hp : (o.length : Int) ≤ p + 1) :
    nextVideo sh ⟨urls, o, p⟩ =
      (⟨urls, sh (eligibleRows urls), 0⟩,
        some (pyStrip (urls.getD ((sh (eligibleRows urls)).getD 0 0) "")), 1) := by
  have hurls := urls_ne_nil_of_order ⟨urls, o, p⟩ helig hne
  have hstale := stale_false ⟨urls, o, p⟩ helig hne
  have hemp : (sh (eligibleRows urls)).isEmpty = false := by
    simpa [List.isEmpty_iff] using hne2
  have h0 : 0 < (sh (eligibleRows urls)).length := List.length_pos.mpr hne2
  unfold nextVideo
  rw [if_neg hurls]
  simp only [hstale, Bool.false_eq_true, if_false]
  rw [if_pos hp]
  simp only [rebuildOrder, hemp, Bool.false_eq_true, if_false]
  exact fetchAt_eq ⟨urls, sh (eligibleRows urls), 0⟩ 1 0 rfl h0 helig2

/-- `next_video` on an empty order: one rebuild, then the first fresh row. -/
theorem nextVideo_emptyOrder (sh : List Nat → List Nat) (urls : List String)
    (p : Int) (hurls : urls.length ≠ 0)
    (helig2 : ∀ i ∈ sh (eligibleRows urls), i ∈ eligibleRows urls)
    (hne2 : sh (eligibleRows urls) ≠ []) :
    nextVideo sh ⟨urls, [], p⟩ =
      (⟨urls, sh (eligibleRows urls), 0⟩,
        some (pyStrip (urls.getD ((sh (eligibleRows urls)).getD 0 0) "")), 1) := by
  have hemp : (sh (eligibleRows urls)).isEmpty = false := by
    simpa [List.isEmpty_iff] using hne2
  have h0 : 0 < (sh (eligibleRows urls)).length := List.length_pos.mpr hne2
  have hov : ¬ ((0 : Int) ≤ -1 + 1) = False := by norm_num
  unfold nextVideo
  rw [if_neg hurls]
  simp only [List.isEmpty_nil, Bool.true_or, if_true, rebuildOrder]
  have hlen : ¬ (((sh (eligibleRows urls)).length : Int) ≤ -1 + 1) := by
    have : (1 : Int) ≤ ((sh (eligibleRows urls)).length : Int) := by
      exact_mod_cast h0
    omega
  rw [if_neg hlen]
  exact fetchAt_eq ⟨urls, sh (eligibleRows urls), 0⟩ 1 0 (by norm_num) h0 helig2

/-- `next_video` never comes back empty-handed while an eligible URL exists
(valid pointer, order drawn from the eligible rows). -/
theorem nextVideo_isSome (sh : List Nat → List Nat) (σ : QueueState)
    (hshperm : ∀ l : List Nat, (sh l).Perm l)
    (hne : eligibleRows σ.urls ≠ [])
    (hpos : -1 ≤ σ.play_pos)
    (helig : ∀ i ∈ σ.play_order, i ∈ eligibleRows σ.urls) :
    (nextVideo sh σ).2.1.isSome = true := by
  obtain ⟨urls, o, p⟩ := σ
  dsimp only at hne hpos helig
  have helig2 : ∀ i ∈ sh (eligibleRows urls), i ∈ eligibleRows urls :=
    fun i hi => (hshperm (eligibleRows urls)).subset hi
  have hne2 : sh (eligibleRows urls) ≠ [] := by
    intro h
    apply hne
    have hlen := (hshperm (eligibleRows urls)).length_eq
    rw [h] at hlen
    exact List.length_eq_zero.mp hlen.symm
  have hurls : urls.length ≠ 0 := by
    obtain ⟨i, hi⟩ := List.exists_mem_of_ne_nil _ hne
    have := (mem_eligibleRows.mp hi).1
    omega
  by_cases hone : o = []
  · subst hone
    rw [nextVideo_emptyOrder sh urls p hurls helig2 hne2]
    rfl
  · by_cases hov : ((o.length : Int) ≤ p + 1)
    · rw [nextVideo_wrap sh urls o p helig hone helig2 hne2 hov]
      rfl
    · have hp1 : (0 : Int) ≤ p + 1 := by omega
      have hjeq : (((p + 1).toNat : Nat) : Int) = p + 1 := Int.toNat_of_nonneg hp1
      have hj : (p + 1).toNat < o.length := by
        have : p + 1 < (o.length : Int) := by omega
        omega
      have hpos' : p = (((p + 1).toNat : Nat) : Int) - 1 := by omega
      rw [show (⟨urls, o, p⟩ : QueueState)
          = ⟨urls, o, (((p + 1).toNat : Nat) : Int) - 1⟩ by rw [← hpos']]
      rw [nextVideo_step sh ⟨urls, o, (((p + 1).toNat : Nat) : Int) - 1⟩
        (p + 1).toNat helig hone rfl hj]
      rfl

end QueueState

/-- C4: starting from a fresh shuffle of a list whose N non-empty URLs are
distinct, N `next_video` calls open each non-empty URL exactly once (their
outputs are a permutation of the eligible URLs, with no rebuild); the (N+1)-th
call performs exactly one rebuild and opens a valid item; and `next_video`
never comes back without a URL while an eligible URL exists (valid pointer,
order drawn from the eligible rows). -/
theorem queue_coverage (urls : List String) (sh : List Nat → List Nat)
    (hsh : ∀ l : List Nat, (sh l).Perm l)
    (hne : QueueState.eligibleRows urls ≠ [])
    (hnodup : ((QueueState.eligibleRows urls).map
      (fun i => pyStrip (urls.getD i ""))).Nodup) :
    (∃ us : List String,
      (QueueState.advanceRun sh (QueueState.rebuildOrder sh ⟨urls, [], -1⟩)
        (QueueState.eligibleRows urls).length).2 = us.map some ∧
      us.Perm ((QueueState.eligibleRows urls).map
        (fun i => pyStrip (urls.getD i ""))) ∧
      us.Nodup) ∧
    (QueueState.nextVideo sh (QueueState.advanceRun sh
        (QueueState.rebuildOrder sh ⟨urls, [], -1⟩)
        (QueueState.eligibleRows urls).length).1).2.2 = 1 ∧
    (QueueState.nextVideo sh (QueueState.advanceRun sh
        (QueueState.rebuildOrder sh ⟨urls, [], -1⟩)
        (QueueState.eligibleRows urls).length).1).2.1.isSome = true ∧
    (∀ σ : QueueState, σ.urls = urls → -1 ≤ σ.play_pos →
      (∀ i ∈ σ.play_order, i ∈ QueueState.eligibleRows σ.urls) →
      (QueueState.nextVideo sh σ).2.1.isSome = true) := by
  have helig : ∀ i ∈ sh (QueueState.eligibleRows urls),
      i ∈ QueueState.eligibleRows urls :=
    fun i hi => (hsh _).subset hi
  have hshne : sh (QueueState.eligibleRows urls) ≠ [] := by
    intro h
    apply hne
    have hlen := (hsh (QueueState.eligibleRows urls)).length_eq
    rw [h] at hlen
    exact List.length_eq_zero.mp hlen.symm
  have hlen : (sh (QueueState.eligibleRows urls)).length
      = (QueueState.eligibleRows urls).length := (hsh _).length_eq
  have hσ0 : QueueState.rebuildOrder sh ⟨urls, [], -1⟩
      = ⟨urls, sh (QueueState.eligibleRows urls), ((0 : Nat) : Int) - 1⟩ := by
    simp only [QueueState.rebuildOrder]
    norm_num
  have hrun := QueueState.advanceRun_steps sh urls
    (sh (QueueState.eligibleRows urls)) helig hshne
    (QueueState.eligibleRows urls).length 0 (by rw [hlen]; omega)
  rw [hσ0, hrun]
  have houts : ((sh (QueueState.eligibleRows urls)).drop 0).take
        (QueueState.eligibleRows urls).length
      = sh (QueueState.eligibleRows urls) := by
    rw [List.drop_zero, ← hlen, List.take_length]
  refine ⟨?_, ?_, ?_, ?_⟩
  · refine ⟨(sh (QueueState.eligibleRows urls)).map
      (fun i => pyStrip (urls.getD i "")), ?_, ?_, ?_⟩
    · rw [houts]
      simp [List.map_map]
    · exact (hsh _).map _
    · exact (((hsh _).map (fun i => pyStrip (urls.getD i ""))).symm).nodup hnodup
  · rw [QueueState.nextVideo_wrap sh urls (sh (QueueState.eligibleRows urls)) _
      helig hshne helig hshne (by rw [hlen]; push_cast; omega)]
  · rw [QueueState.nextVideo_wrap sh urls (sh (QueueState.eligibleRows urls)) _
      helig hshne helig hshne (by rw [hlen]; push_cast; omega)]
    rfl
  · intro σ hσu hσp hσe
    exact QueueState.nextVideo_isSome sh σ hsh (hσu ▸ hne) hσp hσe

/-- Witness for C4 on the list `["a", " ", "b"]` (two distinct non-empty URLs,
one blank row) with the identity permutation standing in for the shuffle. -/
theorem queue_coverage_witness :
    (∃ us : List String,
      (QueueState.advanceRun (fun l => l)
        (QueueState.rebuildOrder (fun l => l) ⟨["a", " ", "b"], [], -1⟩)
        (QueueState.eligibleRows ["a", " ", "b"]).length).2 = us.map some ∧
      us.Perm ((QueueState.eligibleRows ["a", " ", "b"]).map
        (fun i => pyStrip ((["a", " ", "b"] : List String).getD i ""))) ∧
      us.Nodup) ∧
    (QueueState.nextVideo (fun l => l) (QueueState.advanceRun (fun l => l)
        (QueueState.rebuildOrder (fun l => l) ⟨["a", " ", "b"], [], -1⟩)
        (QueueState.eligibleRows ["a", " ", "b"]).length).1).2.2 = 1 ∧
    (QueueState.nextVideo (fun l => l) (QueueState.advanceRun (fun l => l)
        (QueueState.rebuildOrder (fun l => l) ⟨["a", " ", "b"], [], -1⟩)
        (QueueState.eligibleRows ["a", " ", "b"]).length).1).2.1.isSome = true := by
  have h := queue_coverage ["a", " ", "b"] (fun l => l)
    (fun l => List.Perm.refl l) (by decide) (by decide)
  exact ⟨h.1, h.2.1, h.2.2.1⟩
